import Mathlib

/-!
# Verification of the Tardoc summary engine (`organe.py`)

A shallow embedding, in Lean 4, of the classification-and-formatting engine of
`organe.py`: the data model (`Item`, `Entry`), the token parsing of the
affected-number prompt (`ask_tokens` / `ask_numbers`), the classification
engine (`replace_pathological`), the text formatter (`build_summary_text`),
and the CSV access paths (`iter_items_from_csv`, `load_organs_menu`,
`select_items_for_kuerzel`).

Interactive reads (`input(...)`) are abstracted as explicit parameters:
the set of affected numbers is passed in as `chosen`, and the per-question
free-text answers as a stream `provider : Nat → String` consumed in question
order (question `k` is the `k`-th `input()` call issued by the engine).
The filesystem is abstracted as a map `fs : String → List Row` from a path
to the parsed rows of the CSV file at that path, and the external Python
builtin `int` as a conversion `pyInt : String → Option Int` whose `none`
stands for `ValueError`.

String primitives used by the Python code (`str.strip`, `str.lower`,
`str.split(",")`, `", ".join`) are modelled structurally over `List Char`
so that every definition evaluates by kernel reduction.
-/

/-- Python `str.isspace` on a single character, for the ASCII whitespace the
`strip()` calls in `organe.py` can meet (space, tab, LF, CR, VT, FF). -/
def isPySpace (c : Char) : Bool :=
  c = ' ' || c = '\t' || c = '\n' || c = '\r' || c = '\x0b' || c = '\x0c'

/-- Remove leading and trailing whitespace from a character list:
the character-level body of Python `str.strip()`. -/
def stripChars (l : List Char) : List Char :=
  ((l.dropWhile isPySpace).reverse.dropWhile isPySpace).reverse

/-- Python `str.strip()`. -/
def strip (s : String) : String :=
  ⟨stripChars s.data⟩

/-- Python `str.lower()` (ASCII case folding, which is all the catalog uses). -/
def lower (s : String) : String :=
  ⟨s.data.map Char.toLower⟩

/-- Split a character list at every occurrence of the separator character:
the body of Python `str.split(",")`. -/
def splitOnChar (sep : Char) : List Char → List (List Char)
  | [] => [[]]
  | c :: rest =>
    let groups := splitOnChar sep rest
    if c = sep then
      [] :: groups
    else
      match groups with
      | [] => [[c]]
      | g :: gs => (c :: g) :: gs

/-- Python `sep.join(parts)`. -/
def joinWith (sep : String) : List String → String
  | [] => ""
  | [x] => x
  | x :: rest => x ++ sep ++ joinWith sep rest

-- ------------------ DATA MODEL ------------------

/-- Embeds `organe.py` line 55: one immutable catalog entry. -/
structure Item where
  kuerzel : String
  nummer : Int
  text : String
  bilateral : Bool
  active : Bool := true
  deriving DecidableEq, Repr

/-- Embeds `organe.py` line 64: one immutable output unit; `side` is
`some "LINKS"`, `some "RECHTS"`, or `none`. -/
structure Entry where
  side : Option String
  text : String
  deriving DecidableEq, Repr

-- ------------------ INPUT HELPERS ------------------

/-- Embeds `organe.py` line 73 (`ask_tokens`): split the raw prompt answer on commas,
strip each piece, drop the pieces that strip to the empty string. -/
def ask_tokens (raw : String) : List String :=
  (((splitOnChar ',' raw.data).map fun p => strip ⟨p⟩).filter fun p => p ≠ "")

/-- Digit-run tail of CPython `int(str)` after the first digit: further ASCII
digits, with single underscores allowed between digits only (`10 = int("1_0")`,
while `"1__0"`, `"1_"` fail). -/
def pyDigitsAux : Nat → List Char → Option Nat
  | acc, [] => some acc
  | acc, '_' :: c :: rest =>
    if c.isDigit then pyDigitsAux (10 * acc + (c.toNat - '0'.toNat)) rest
    else none
  | _, ['_'] => none
  | acc, c :: rest =>
    if c.isDigit then pyDigitsAux (10 * acc + (c.toNat - '0'.toNat)) rest
    else none

/-- Concrete executable instance of the builtin-`int` abstraction (see
`ask_numbers`): CPython `int(token)` on the ASCII-decimal fragment — an
optional ASCII sign, a first decimal digit, then `pyDigitsAux` (so with
Python's underscore digit grouping); `none` models `ValueError`.  Non-ASCII
decimal digits (Unicode category Nd, e.g. Arabic-Indic digits), which the
builtin also converts, are outside the modelled fragment: this instance is
used only to run the model on concrete inputs (witnesses, the CSV loader),
where no theorem depends on the grammar's extent. -/
def parseIntToken (s : String) : Option Int :=
  let start : List Char → Option Nat := fun l =>
    match l with
    | c :: rest =>
      if c.isDigit then pyDigitsAux (c.toNat - '0'.toNat) rest else none
    | [] => none
  match s.data with
  | '-' :: rest => (start rest).map fun n => -(n : Int)
  | '+' :: rest => (start rest).map fun n => (n : Int)
  | l => (start l).map fun n => (n : Int)

/-- One iteration of the `for token in ...` loop of `ask_numbers`
(`organe.py` lines 79-83).  The Python builtin `int` is external to this
repository, so — exactly as `input()` is abstracted by `provider` and the
filesystem by `fs` — it is passed in as `pyInt : String → Option Int`, with
`none` standing for the `ValueError` the `except` arm catches: a converted
token is added to the set, a rejected one is recorded as a warning
(`print("Ignoriere ...")`). -/
def ask_numbers_step (pyInt : String → Option Int)
    (acc : List Int × List String) (token : String) :
    List Int × List String :=
  match pyInt token with
  | some n => (acc.1.insert n, acc.2)
  | none => (acc.1, acc.2 ++ [token])

/-- Embeds `organe.py` line 77 (`ask_numbers`): the set of parsed numbers (as a
duplicate-free list, membership being what the engine consumes) together with
the warnings emitted for dropped tokens, for any behaviour `pyInt` of the
external builtin `int`. -/
def ask_numbers (pyInt : String → Option Int) (raw : String) :
    List Int × List String :=
  (ask_tokens raw).foldl (ask_numbers_step pyInt) ([], [])

-- ------------------ CLASSIFICATION ENGINE ------------------

/-- The body of the `for item in items` loop of `replace_pathological`
(`organe.py` lines 180-199).  The accumulator carries the `normal` and
`pathological` lists and the number `k` of `input()` questions asked so far;
`provider k` is the raw answer to question `k`. -/
def classifyStep (provider : Nat → String) (chosen : List Int)
    (acc : List Entry × List Entry × Nat) (item : Item) :
    List Entry × List Entry × Nat :=
  let normal := acc.1
  let patho := acc.2.1
  let k := acc.2.2
  if item.nummer ∈ chosen then
    if item.bilateral then
      let left := strip (provider k)
      let right := strip (provider (k + 1))
      let acc1 : List Entry × List Entry :=
        if left = "" then (normal ++ [⟨some "LINKS", item.text⟩], patho)
        else (normal, patho ++ [⟨some "LINKS", left⟩])
      let acc2 : List Entry × List Entry :=
        if right = "" then (acc1.1 ++ [⟨some "RECHTS", item.text⟩], acc1.2)
        else (acc1.1, acc1.2 ++ [⟨some "RECHTS", right⟩])
      (acc2.1, acc2.2, k + 2)
    else
      let new_text := strip (provider k)
      if new_text = "" then (normal ++ [⟨none, item.text⟩], patho, k + 1)
      else (normal, patho ++ [⟨none, new_text⟩], k + 1)
  else
    if item.bilateral then
      (normal ++ [⟨some "LINKS", item.text⟩, ⟨some "RECHTS", item.text⟩], patho, k)
    else
      (normal ++ [⟨none, item.text⟩], patho, k)

/-- Embeds `organe.py` line 174 (`replace_pathological`): classify the items into the
`(normal, pathological)` buckets.  The affected set `chosen` and the answer
stream `provider` stand for the interactive reads. -/
def replace_pathological (provider : Nat → String) (chosen : List Int)
    (items : List Item) : List Entry × List Entry :=
  let r := items.foldl (classifyStep provider chosen) ([], [], 0)
  (r.1, r.2.1)

-- ------------------ TEXT FORMATTER ------------------

/-- The `bucket` helper of `build_summary_text` (`organe.py` lines 205-209),
read off at one key: the texts of the entries whose `side` equals `s`,
in entry order. -/
def bucketTexts (entries : List Entry) (s : Option String) : List String :=
  (entries.filter fun e => e.side = s).map Entry.text

/-- Embeds `organe.py` lines 214-220 and 230: the pathological line. -/
def patho_line (pathological : List Entry) : String :=
  let parts : List String :=
    (if bucketTexts pathological (some "LINKS") ≠ [] then
      ["LINKS " ++ joinWith ", " (bucketTexts pathological (some "LINKS"))] else []) ++
    (if bucketTexts pathological (some "RECHTS") ≠ [] then
      ["RECHTS " ++ joinWith ", " (bucketTexts pathological (some "RECHTS"))] else []) ++
    (if bucketTexts pathological none ≠ [] then
      [joinWith ", " (bucketTexts pathological none)] else [])
  if parts = [] then "-" else joinWith " " parts

/-- Embeds `organe.py` lines 222-228 and 231: the normal line. -/
def normal_line (normal : List Entry) : String :=
  let parts : List String :=
    (if bucketTexts normal (some "LINKS") ≠ [] then
      ["LINKS (" ++ joinWith ", " (bucketTexts normal (some "LINKS")) ++ ")"] else []) ++
    (if bucketTexts normal (some "RECHTS") ≠ [] then
      ["RECHTS (" ++ joinWith ", " (bucketTexts normal (some "RECHTS")) ++ ")"] else []) ++
    (if bucketTexts normal none ≠ [] then
      [joinWith ", " (bucketTexts normal none)] else [])
  if parts = [] then "-" else joinWith "; " parts

/-- Embeds `organe.py` line 204 (`build_summary_text`): the final two-line report. -/
def build_summary_text (normal pathological : List Entry) : String :=
  "Pathologisch: " ++ patho_line pathological ++ "\n" ++
    "Normal: " ++ normal_line normal

-- ------------------ PER-ITEM CONTRIBUTIONS ------------------

/-- The entries one item adds to the `normal` bucket when processed with `k`
questions already asked (read off from the branches of `classifyStep`). -/
def contribNormal (provider : Nat → String) (chosen : List Int) (k : Nat)
    (item : Item) : List Entry :=
  if item.nummer ∈ chosen then
    if item.bilateral then
      (if strip (provider k) = "" then [⟨some "LINKS", item.text⟩] else []) ++
        (if strip (provider (k + 1)) = "" then [⟨some "RECHTS", item.text⟩] else [])
    else if strip (provider k) = "" then [⟨none, item.text⟩] else []
  else if item.bilateral then
    [⟨some "LINKS", item.text⟩, ⟨some "RECHTS", item.text⟩]
  else [⟨none, item.text⟩]

/-- The entries one item adds to the `pathological` bucket when processed
with `k` questions already asked. -/
def contribPatho (provider : Nat → String) (chosen : List Int) (k : Nat)
    (item : Item) : List Entry :=
  if item.nummer ∈ chosen then
    if item.bilateral then
      (if strip (provider k) = "" then [] else [⟨some "LINKS", strip (provider k)⟩]) ++
        (if strip (provider (k + 1)) = "" then []
         else [⟨some "RECHTS", strip (provider (k + 1))⟩])
    else if strip (provider k) = "" then [] else [⟨none, strip (provider k)⟩]
  else []

/-- How many `input()` questions one item consumes. -/
def questionCount (chosen : List Int) (item : Item) : Nat :=
  if item.nummer ∈ chosen then if item.bilateral then 2 else 1 else 0

/-- Pair every item with the number of questions asked before it is reached. -/
def withCounters (chosen : List Int) : List Item → Nat → List (Nat × Item)
  | [], _ => []
  | it :: rest, k => (k, it) :: withCounters chosen rest (k + questionCount chosen it)

theorem classifyStep_eq (provider : Nat → String) (chosen : List Int)
    (n p : List Entry) (k : Nat) (item : Item) :
    classifyStep provider chosen (n, p, k) item =
      (n ++ contribNormal provider chosen k item,
       p ++ contribPatho provider chosen k item,
       k + questionCount chosen item) := by
  simp only [classifyStep, contribNormal, contribPatho, questionCount]
  by_cases hm : item.nummer ∈ chosen <;> by_cases hb : item.bilateral <;>
    simp [hm, hb] <;> split_ifs <;> simp

theorem foldl_classifyStep (provider : Nat → String) (chosen : List Int) :
    ∀ (items : List Item) (n p : List Entry) (k : Nat),
      items.foldl (classifyStep provider chosen) (n, p, k) =
        (n ++ (withCounters chosen items k).flatMap
            (fun q => contribNormal provider chosen q.1 q.2),
         p ++ (withCounters chosen items k).flatMap
            (fun q => contribPatho provider chosen q.1 q.2),
         k + (items.map (questionCount chosen)).sum)
  | [], n, p, k => by simp [withCounters]
  | it :: rest, n, p, k => by
    rw [List.foldl_cons, classifyStep_eq,
      foldl_classifyStep provider chosen rest _ _ _]
    simp [withCounters, List.append_assoc]
    omega

/-- The run of the engine is the concatenation, in item order, of the
per-item contributions. -/
theorem replace_pathological_eq (provider : Nat → String) (chosen : List Int)
    (items : List Item) :
    replace_pathological provider chosen items =
      ((withCounters chosen items 0).flatMap
          (fun q => contribNormal provider chosen q.1 q.2),
       (withCounters chosen items 0).flatMap
          (fun q => contribPatho provider chosen q.1 q.2)) := by
  simp [replace_pathological, foldl_classifyStep]

-- ------------------ FORMATTER, AS THE SPEC STATES IT ------------------

/-- Spec section 4.2, step 1-4 key order: Left, Right, None. -/
def specKeys : List (Option String) := [some "LINKS", some "RECHTS", none]

/-- Spec section 4.2, step 2: a pathological part from the comma-join of a
bucket (`Left → "LINKS " + texts`, `Right → "RECHTS " + texts`, `None`
unlabelled). -/
def specPathoPart : Option String → String → String
  | some "LINKS", txt => "LINKS " ++ txt
  | some "RECHTS", txt => "RECHTS " ++ txt
  | _, txt => txt

/-- Spec section 4.2, step 3: a normal part (`Left → "LINKS (" + texts + ")"`,
`Right → "RECHTS (" + texts + ")"`, `None` without parentheses). -/
def specNormalPart : Option String → String → String
  | some "LINKS", txt => "LINKS (" ++ txt ++ ")"
  | some "RECHTS", txt => "RECHTS (" ++ txt ++ ")"
  | _, txt => txt

/-- Spec section 4.2, steps 1-3: one output line, built from the non-empty
side buckets in the fixed key order, each rendered by `label` on the
comma-join of its texts, joined by `sep`; the placeholder `-` if no part
exists. -/
def specLine (label : Option String → String → String) (sep : String)
    (entries : List Entry) : String :=
  let parts :=
    ((specKeys.filter fun s => bucketTexts entries s ≠ []).map
      fun s => label s (joinWith ", " (bucketTexts entries s)))
  if parts = [] then "-" else joinWith sep parts

/-- Spec section 4.2, step 4: the final output string. -/
def formatSpec (normal pathological : List Entry) : String :=
  "Pathologisch: " ++ specLine specPathoPart " " pathological ++ "\n" ++
    "Normal: " ++ specLine specNormalPart "; " normal

-- ------------------ CSV READING ------------------

/-- Embeds `organe.py` line 12: the fixed default CSV filename. -/
def DEFAULT_CSV : String := "organe.csv"

/-- Embeds `organe.py` line 23: tokens recognised as true by `parse_bool`. -/
def TRUTHY : List String := ["1", "true", "yes", "y", "ja", "j"]

/-- Embeds `organe.py` line 87 (`parse_bool`); `none` models a Python `None` cell. -/
def parse_bool (value : Option String) (default : Bool) : Bool :=
  match value with
  | none => default
  | some v => lower (strip v) ∈ TRUTHY

/-- One parsed CSV row as `csv.DictReader` hands it to the loaders; the
required columns are plain strings, the optional ones `Option String`
(`none` = column missing). -/
structure Row where
  kuerzel : String
  item_order : String
  text : String
  active : Option String
  bilateral : Option String
  organ : Option String
  deriving DecidableEq, Repr

/-- The row-to-`Item` body of the loop in `iter_items_from_csv`
(`organe.py` lines 98-113); `none` models the `ValueError` a non-integer
`item_order` raises. -/
def rowToItem (include_active : Bool) (row : Row) : Option Item :=
  match parseIntToken (strip row.item_order) with
  | none => none
  | some n =>
    some
      { kuerzel := lower (strip row.kuerzel)
        nummer := n
        text := strip row.text
        bilateral := parse_bool (some (row.bilateral.getD "")) false
        active :=
          if include_active then parse_bool (some (row.active.getD "1")) true
          else true }

/-- Embeds `organe.py` line 95 (`iter_items_from_csv`).  NOTE: faithful to line 96,
the file opened is `DEFAULT_CSV`, not the `csv_path` argument. -/
def iter_items_from_csv (fs : String → List Row) (csv_path : String)
    (include_active : Bool) : Option (List Item) :=
  (fs DEFAULT_CSV).mapM (rowToItem include_active)

/-- Embeds `organe.py` line 116 (`load_organs_menu`): the deduplicated
`(organ, kuerzel)` pairs, sorted by `(organ.lower(), kuerzel)`.  NOTE:
faithful to line 118, the file opened is `DEFAULT_CSV`, not `csv_path`. -/
def load_organs_menu (fs : String → List Row) (csv_path : String) :
    List (String × String) :=
  let pairs :=
    ((fs DEFAULT_CSV).map fun row =>
        (strip (row.organ.getD ""), lower (strip row.kuerzel))).filter
      fun q => q.1 ≠ "" ∧ q.2 ≠ ""
  (pairs.dedup.mergeSort fun a b =>
    (lower a.1).data < (lower b.1).data ∨
      ((lower a.1).data = (lower b.1).data ∧ a.2.data ≤ b.2.data))

/-- Embeds `organe.py` line 127 (`select_items_for_kuerzel`): keep the items whose
code was selected (and, when `use_active`, are active), sorted by `nummer`. -/
def select_items_for_kuerzel (fs : String → List Row)
    (selected_kuerzel : List String) (csv_path : String) (use_active : Bool) :
    Option (List Item) :=
  let wanted :=
    (selected_kuerzel.filter fun r => strip r ≠ "").map fun r => lower (strip r)
  (iter_items_from_csv fs csv_path use_active).map fun items =>
    ((items.filter fun it =>
        it.kuerzel ∈ wanted ∧ (use_active = false ∨ it.active)).mergeSort
      fun a b => a.nummer ≤ b.nummer)

-- ------------------ SHARED LEMMAS ON CONTRIBUTIONS ------------------

theorem contrib_length (provider : Nat → String) (chosen : List Int) (k : Nat)
    (item : Item) :
    (contribNormal provider chosen k item).length +
        (contribPatho provider chosen k item).length =
      if item.bilateral then 2 else 1 := by
  simp only [contribNormal, contribPatho]
  by_cases hm : item.nummer ∈ chosen <;> by_cases hb : item.bilateral <;>
    simp [hm, hb] <;> split_ifs <;> simp

theorem run_length (provider : Nat → String) (chosen : List Int) :
    ∀ (items : List Item) (k : Nat),
      ((withCounters chosen items k).flatMap
          (fun q => contribNormal provider chosen q.1 q.2)).length +
        ((withCounters chosen items k).flatMap
          (fun q => contribPatho provider chosen q.1 q.2)).length =
      (items.map fun it => if it.bilateral then 2 else 1).sum
  | [], _ => by simp [withCounters]
  | it :: rest, k => by
    have ih := run_length provider chosen rest (k + questionCount chosen it)
    have hc := contrib_length provider chosen k it
    simp only [withCounters, List.flatMap_cons, List.length_append,
      List.map_cons, List.sum_cons]
    omega

theorem mem_withCounters {chosen : List Int} :
    ∀ {items : List Item} {k : Nat} {q : Nat × Item},
      q ∈ withCounters chosen items k → q.2 ∈ items
  | [], _, _, h => by simp [withCounters] at h
  | it :: rest, k, q, h => by
    simp only [withCounters, List.mem_cons] at h
    rcases h with h | h
    · simp [h]
    · exact List.mem_cons_of_mem _ (mem_withCounters h)

theorem sorted_contrib_nums (g : Nat × Item → List Entry) (chosen : List Int) :
    ∀ (items : List Item) (k : Nat),
      List.Sorted (· ≤ ·) (items.map Item.nummer) →
      List.Sorted (· ≤ ·) ((withCounters chosen items k).flatMap
        (fun q => List.replicate (g q).length q.2.nummer))
  | [], _, _ => by simp [withCounters]
  | it :: rest, k, hs => by
    rw [List.map_cons, List.sorted_cons] at hs
    simp only [withCounters, List.flatMap_cons]
    rw [List.Sorted, List.pairwise_append]
    refine ⟨List.pairwise_replicate.mpr (Or.inr le_rfl),
      sorted_contrib_nums g chosen rest _ hs.2, ?_⟩
    intro a ha b hb
    rw [List.eq_of_mem_replicate ha]
    obtain ⟨q, hq, hbq⟩ := List.mem_flatMap.mp hb
    rw [List.eq_of_mem_replicate hbq]
    exact hs.1 _ (List.mem_map_of_mem _ (mem_withCounters hq))

theorem contrib_sides (provider : Nat → String) (chosen : List Int) (k : Nat)
    (item : Item) :
    (((contribNormal provider chosen k item ++
          contribPatho provider chosen k item).map Entry.side : List (Option String)) :
        Multiset (Option String)) =
      if item.bilateral then
        ({some "LINKS", some "RECHTS"} : Multiset (Option String))
      else {none} := by
  simp only [contribNormal, contribPatho]
  by_cases hm : item.nummer ∈ chosen <;> by_cases hb : item.bilateral <;>
    simp [hm, hb] <;> (try split_ifs) <;> (try simp) <;> decide

-- ------------------ CLAIM THEOREMS ------------------

/-- C1: for an affected bilateral item, the engine asks for a Left override
(question `k`) and a Right override (question `k + 1`) independently, and for
each side appends `Entry(side, override)` to Pathological when the stripped
answer is non-empty, else `Entry(side, item.text)` to Normal — Left first. -/
theorem c1_bilateral_affected (provider : Nat → String) (chosen : List Int)
    (n p : List Entry) (k : Nat) (item : Item)
    (ha : item.nummer ∈ chosen) (hb : item.bilateral = true) :
    classifyStep provider chosen (n, p, k) item =
      (n ++ (if strip (provider k) = "" then [⟨some "LINKS", item.text⟩] else []) ++
         (if strip (provider (k + 1)) = "" then [⟨some "RECHTS", item.text⟩] else []),
       p ++ (if strip (provider k) = "" then [] else [⟨some "LINKS", strip (provider k)⟩]) ++
         (if strip (provider (k + 1)) = "" then []
          else [⟨some "RECHTS", strip (provider (k + 1))⟩]),
       k + 2) := by
  rw [classifyStep_eq]
  simp [contribNormal, contribPatho, questionCount, ha, hb, List.append_assoc]

theorem c1_witness :
    classifyStep (fun j => if j = 0 then " Infiltrat " else "  ") [7]
        ([], [], 0) ⟨"l", 7, "Lunge", true, true⟩ =
      ([⟨some "RECHTS", "Lunge"⟩], [⟨some "LINKS", "Infiltrat"⟩], 2) :=
  (c1_bilateral_affected (fun j => if j = 0 then " Infiltrat " else "  ") [7]
    [] [] 0 ⟨"l", 7, "Lunge", true, true⟩ (by decide) rfl).trans (by decide)

/-- C6: an item whose number is not affected produces only Normal entries
carrying its default text (both sides for a bilateral item, one `side = None`
entry otherwise), asks no question (the counter stays `k` and the result does
not depend on `provider`), and adds nothing to Pathological. -/
theorem c6_not_affected (provider : Nat → String) (chosen : List Int)
    (n p : List Entry) (k : Nat) (item : Item) (h : item.nummer ∉ chosen) :
    classifyStep provider chosen (n, p, k) item =
      (n ++ (if item.bilateral then
          [⟨some "LINKS", item.text⟩, ⟨some "RECHTS", item.text⟩]
        else [⟨none, item.text⟩]),
       p, k) := by
  rw [classifyStep_eq]
  by_cases hb : item.bilateral <;>
    simp [contribNormal, contribPatho, questionCount, h, hb]

theorem c6_witness :
    classifyStep (fun _ => "egal") [2] ([], [], 5) ⟨"h", 1, "Herz", false, true⟩ =
      ([⟨none, "Herz"⟩], [], 5) :=
  (c6_not_affected (fun _ => "egal") [2] [] [] 5 ⟨"h", 1, "Herz", false, true⟩
    (by decide)).trans (by decide)

/-- C2: the run is the concatenation of per-item contributions; the total
number of entries is `2` per bilateral item and `1` per other item; and each
item's contribution, across both buckets together, consists of exactly one
Left and one Right entry (bilateral) or exactly one `side = None` entry —
so every produced entry lies in exactly one bucket, never both, never
neither. -/
theorem c2_partition (provider : Nat → String) (chosen : List Int)
    (items : List Item) :
    (replace_pathological provider chosen items =
      ((withCounters chosen items 0).flatMap
          (fun q => contribNormal provider chosen q.1 q.2),
       (withCounters chosen items 0).flatMap
          (fun q => contribPatho provider chosen q.1 q.2))) ∧
    ((replace_pathological provider chosen items).1.length +
        (replace_pathological provider chosen items).2.length =
      (items.map fun it => if it.bilateral then 2 else 1).sum) ∧
    (∀ (k : Nat) (item : Item),
      (((contribNormal provider chosen k item ++
            contribPatho provider chosen k item).map Entry.side :
          List (Option String)) : Multiset (Option String)) =
        if item.bilateral then
          ({some "LINKS", some "RECHTS"} : Multiset (Option String))
        else {none}) := by
  refine ⟨replace_pathological_eq provider chosen items, ?_, ?_⟩
  · rw [replace_pathological_eq]
    exact run_length provider chosen items 0
  · exact contrib_sides provider chosen

/-- C5: when the items are sorted ascending by `nummer`, the source numbers
of the entries in each bucket (read off the per-item decomposition of the
run) are ascending; within one item's contribution to a bucket a Right entry
never precedes a Left entry; and `select_items_for_kuerzel` returns its items
explicitly sorted ascending by `nummer`. -/
theorem c5_order (provider : Nat → String) (chosen : List Int)
    (items : List Item) (hs : List.Sorted (· ≤ ·) (items.map Item.nummer)) :
    (replace_pathological provider chosen items =
      ((withCounters chosen items 0).flatMap
          (fun q => contribNormal provider chosen q.1 q.2),
       (withCounters chosen items 0).flatMap
          (fun q => contribPatho provider chosen q.1 q.2))) ∧
    List.Sorted (· ≤ ·) ((withCounters chosen items 0).flatMap
      (fun q => List.replicate (contribNormal provider chosen q.1 q.2).length
        q.2.nummer)) ∧
    List.Sorted (· ≤ ·) ((withCounters chosen items 0).flatMap
      (fun q => List.replicate (contribPatho provider chosen q.1 q.2).length
        q.2.nummer)) ∧
    (∀ (k : Nat) (item : Item),
      List.Pairwise
        (fun a b : Entry => ¬(a.side = some "RECHTS" ∧ b.side = some "LINKS"))
        (contribNormal provider chosen k item) ∧
      List.Pairwise
        (fun a b : Entry => ¬(a.side = some "RECHTS" ∧ b.side = some "LINKS"))
        (contribPatho provider chosen k item)) := by
  refine ⟨replace_pathological_eq provider chosen items,
    sorted_contrib_nums _ chosen items 0 hs,
    sorted_contrib_nums _ chosen items 0 hs, ?_⟩
  intro k item
  constructor <;>
  · simp only [contribNormal, contribPatho]
    by_cases hm : item.nummer ∈ chosen <;> by_cases hb : item.bilateral <;>
      simp [hm, hb] <;> (try split_ifs) <;> (try simp)

theorem c5_witness :
    List.Sorted (· ≤ ·)
      ((withCounters [2] [⟨"h", 1, "Herz", false, true⟩,
          ⟨"l", 2, "Lunge", true, true⟩] 0).flatMap
        (fun q => List.replicate
          (contribNormal (fun _ => "Erguss") [2] q.1 q.2).length q.2.nummer)) :=
  (c5_order (fun _ => "Erguss") [2]
    [⟨"h", 1, "Herz", false, true⟩, ⟨"l", 2, "Lunge", true, true⟩]
    (by decide)).2.1

-- ------------------ FORMATTER LEMMAS AND CLAIMS ------------------

theorem specLine_patho (entries : List Entry) :
    specLine specPathoPart " " entries = patho_line entries := by
  simp only [specLine, patho_line, specKeys]
  by_cases h1 : bucketTexts entries (some "LINKS") = [] <;>
    by_cases h2 : bucketTexts entries (some "RECHTS") = [] <;>
      by_cases h3 : bucketTexts entries none = [] <;>
        simp [h1, h2, h3, specPathoPart]

theorem specLine_normal (entries : List Entry) :
    specLine specNormalPart "; " entries = normal_line entries := by
  simp only [specLine, normal_line, specKeys]
  by_cases h1 : bucketTexts entries (some "LINKS") = [] <;>
    by_cases h2 : bucketTexts entries (some "RECHTS") = [] <;>
      by_cases h3 : bucketTexts entries none = [] <;>
        simp [h1, h2, h3, specNormalPart]

/-- C3: the formatter agrees, on every pair of Entry lists, with the
formatter the spec describes (fixed key order Left, Right, None; labels
`LINKS `/`RECHTS ` resp. `LINKS (…)`/`RECHTS (…)`; separators `" "` resp.
`"; "`; texts comma-joined by `", "`; placeholder `-`; final two-line
shape), and when Pathological is empty the first line is exactly
`Pathologisch: -`. -/
theorem c3_formatter (normal pathological : List Entry) :
    build_summary_text normal pathological = formatSpec normal pathological ∧
    (pathological = [] →
      build_summary_text normal pathological =
        "Pathologisch: -\nNormal: " ++ normal_line normal) := by
  constructor
  · rw [formatSpec, specLine_patho, specLine_normal, build_summary_text]
  · intro hp
    subst hp
    rw [build_summary_text]
    have hline : patho_line [] = "-" := by simp [patho_line, bucketTexts]
    rw [hline]
    rfl

theorem c3_witness :
    build_summary_text [⟨none, "Herz regelrecht"⟩] [] =
        formatSpec [⟨none, "Herz regelrecht"⟩] [] ∧
      build_summary_text [⟨none, "Herz regelrecht"⟩] [] =
        "Pathologisch: -\nNormal: " ++ normal_line [⟨none, "Herz regelrecht"⟩] :=
  ⟨(c3_formatter [⟨none, "Herz regelrecht"⟩] []).1,
    (c3_formatter [⟨none, "Herz regelrecht"⟩] []).2 rfl⟩

/-- C7: the formatter is deterministic — two runs on identical Normal and
Pathological Entry lists return identical strings.  (In this embedding
`build_summary_text` is a total pure function of its two list arguments,
which also renders the source's non-mutation of its inputs: the model has
no state the call could modify.) -/
theorem c7_deterministic (n p n' p' : List Entry) (h1 : n = n') (h2 : p = p') :
    build_summary_text n p = build_summary_text n' p' := by
  rw [h1, h2]

theorem c7_witness :
    build_summary_text [⟨some "LINKS", "A"⟩] [⟨none, "B"⟩] =
      build_summary_text [⟨some "LINKS", "A"⟩] [⟨none, "B"⟩] :=
  c7_deterministic [⟨some "LINKS", "A"⟩] [⟨none, "B"⟩]
    [⟨some "LINKS", "A"⟩] [⟨none, "B"⟩] rfl rfl

theorem bucketTexts_skip (pre post : List Entry) (e : Entry)
    (key : Option String) (hk : e.side ≠ key) :
    bucketTexts (pre ++ e :: post) key = bucketTexts (pre ++ post) key := by
  simp [bucketTexts, List.filter_append, List.filter_cons, hk]

theorem patho_line_skip (pre post : List Entry) (s t : String)
    (hL : s ≠ "LINKS") (hR : s ≠ "RECHTS") :
    patho_line (pre ++ ⟨some s, t⟩ :: post) = patho_line (pre ++ post) := by
  unfold patho_line
  rw [bucketTexts_skip pre post _ (some "LINKS") (by simp [hL]),
    bucketTexts_skip pre post _ (some "RECHTS") (by simp [hR]),
    bucketTexts_skip pre post _ none (by simp)]

theorem normal_line_skip (pre post : List Entry) (s t : String)
    (hL : s ≠ "LINKS") (hR : s ≠ "RECHTS") :
    normal_line (pre ++ ⟨some s, t⟩ :: post) = normal_line (pre ++ post) := by
  unfold normal_line
  rw [bucketTexts_skip pre post _ (some "LINKS") (by simp [hL]),
    bucketTexts_skip pre post _ (some "RECHTS") (by simp [hR]),
    bucketTexts_skip pre post _ none (by simp)]

/-- C9: an Entry whose side is a string other than `"LINKS"` or `"RECHTS"`
is silently dropped by the formatter — deleting it from either input list,
at any position, leaves the output string unchanged. -/
theorem c9_unknown_side_ignored (npre npost ppre ppost other : List Entry)
    (s t u : String) (hL : s ≠ "LINKS") (hR : s ≠ "RECHTS") :
    build_summary_text (npre ++ ⟨some s, t⟩ :: npost) other =
      build_summary_text (npre ++ npost) other ∧
    build_summary_text other (ppre ++ ⟨some s, u⟩ :: ppost) =
      build_summary_text other (ppre ++ ppost) := by
  constructor
  · unfold build_summary_text
    rw [normal_line_skip npre npost s t hL hR]
  · unfold build_summary_text
    rw [patho_line_skip ppre ppost s u hL hR]

theorem c9_witness :
    build_summary_text [⟨some "OBEN", "x"⟩, ⟨none, "Herz"⟩] [] =
      build_summary_text [⟨none, "Herz"⟩] [] ∧
    build_summary_text [] [⟨some "OBEN", "y"⟩] = build_summary_text [] [] :=
  ⟨(c9_unknown_side_ignored [] [⟨none, "Herz"⟩] [] [] [] "OBEN" "x" "y"
      (by decide) (by decide)).1,
    (c9_unknown_side_ignored [] [⟨none, "Herz"⟩] [] [] [] "OBEN" "x" "y"
      (by decide) (by decide)).2⟩

-- ------------------ TOKEN PARSING CLAIM ------------------

theorem ask_numbers_fold (pyInt : String → Option Int) :
    ∀ (ts : List String) (acc : List Int × List String),
      (∀ m : Int, m ∈ (ts.foldl (ask_numbers_step pyInt) acc).1 ↔
        m ∈ acc.1 ∨ ∃ t ∈ ts, pyInt t = some m) ∧
      (ts.foldl (ask_numbers_step pyInt) acc).2 =
        acc.2 ++ ts.filter fun t => (pyInt t).isNone
  | [], acc => by simp
  | t :: ts, acc => by
    rw [List.foldl_cons]
    cases h : pyInt t with
    | some n =>
      have hstep : ask_numbers_step pyInt acc t = (acc.1.insert n, acc.2) := by
        simp [ask_numbers_step, h]
      rw [hstep]
      have ih := ask_numbers_fold pyInt ts (acc.1.insert n, acc.2)
      constructor
      · intro m
        rw [(ih.1 m)]
        simp only [List.mem_insert_iff, List.mem_cons, h]
        constructor
        · rintro (⟨hmn | hma⟩ | ⟨u, hu, hpu⟩)
          · exact Or.inr ⟨t, Or.inl rfl, by rw [h, hmn]⟩
          · exact Or.inl hma
          · exact Or.inr ⟨u, Or.inr hu, hpu⟩
        · rintro (hma | ⟨u, hu | hu, hpu⟩)
          · exact Or.inl (Or.inr hma)
          · subst hu
            rw [h] at hpu
            exact Or.inl (Or.inl (Option.some_inj.mp hpu).symm)
          · exact Or.inr ⟨u, hu, hpu⟩
      · rw [ih.2]
        simp [List.filter_cons, h]
    | none =>
      have hstep : ask_numbers_step pyInt acc t = (acc.1, acc.2 ++ [t]) := by
        simp [ask_numbers_step, h]
      rw [hstep]
      have ih := ask_numbers_fold pyInt ts (acc.1, acc.2 ++ [t])
      constructor
      · intro m
        rw [(ih.1 m)]
        simp only [List.mem_cons]
        constructor
        · rintro (hma | ⟨u, hu, hpu⟩)
          · exact Or.inl hma
          · exact Or.inr ⟨u, Or.inr hu, hpu⟩
        · rintro (hma | ⟨u, hu | hu, hpu⟩)
          · exact Or.inl hma
          · subst hu
            rw [h] at hpu
            exact absurd hpu (by simp)
          · exact Or.inr ⟨u, hu, hpu⟩
      · rw [ih.2]
        simp [List.filter_cons, h]

/-- C8: building the affected set from the raw comma-separated answer is
total (it is a function; the per-token `ValueError` is the `none` branch, so
no error escapes), and this holds for every behaviour `pyInt` of the external
builtin `int` — in particular CPython's, whatever its integer grammar
accepts: a number is in the resulting set exactly when the builtin converts
some stripped token to it, and exactly the tokens the builtin rejects are
dropped, each producing one warning. -/
theorem c8_number_tokens (pyInt : String → Option Int) (raw : String) :
    (∀ m : Int, m ∈ (ask_numbers pyInt raw).1 ↔
      ∃ t ∈ ask_tokens raw, pyInt t = some m) ∧
    (ask_numbers pyInt raw).2 =
      (ask_tokens raw).filter fun t => (pyInt t).isNone := by
  have h := ask_numbers_fold pyInt (ask_tokens raw) ([], [])
  constructor
  · intro m
    rw [ask_numbers, h.1 m]
    simp
  · rw [ask_numbers, h.2]
    simp

theorem c8_witness :
    (10 : Int) ∈ (ask_numbers parseIntToken " 3, x7, 1_0 ,4").1 ∧
    (ask_numbers parseIntToken " 3, x7, 1_0 ,4").2 = ["x7"] :=
  ⟨((c8_number_tokens parseIntToken " 3, x7, 1_0 ,4").1 10).mpr
      ⟨"1_0", by decide, by decide⟩,
    ((c8_number_tokens parseIntToken " 3, x7, 1_0 ,4").2).trans (by decide)⟩

-- ------------------ WHITESPACE LEMMAS ------------------

theorem head?_dropWhile_false {α : Type} (p : α → Bool) :
    ∀ (l : List α) (a : α), (l.dropWhile p).head? = some a → p a = false
  | [], a, h => by simp at h
  | b :: l, a, h => by
    by_cases hb : p b
    · exact head?_dropWhile_false p l a (by simpa [List.dropWhile_cons, hb] using h)
    · rw [List.dropWhile_cons, if_neg hb] at h
      simp only [List.head?_cons, Option.some_inj] at h
      subst h
      simpa using hb

theorem dropWhile_of_clean {α : Type} (p : α → Bool) (l : List α)
    (h : ∀ a, l.head? = some a → p a = false) : l.dropWhile p = l := by
  cases l with
  | nil => rfl
  | cons a l => rw [List.dropWhile_cons, if_neg (by simp [h a rfl])]

theorem getLast?_dropWhile {α : Type} (p : α → Bool) :
    ∀ l : List α, l.dropWhile p ≠ [] → (l.dropWhile p).getLast? = l.getLast?
  | [], h => absurd rfl h
  | a :: l, h => by
    by_cases ha : p a
    · rw [List.dropWhile_cons, if_pos ha] at h ⊢
      cases l with
      | nil => simp at h
      | cons b l' =>
        rw [List.getLast?_cons_cons]
        exact getLast?_dropWhile p (b :: l') h
    · rw [List.dropWhile_cons, if_neg ha]

theorem stripChars_idem (l : List Char) :
    stripChars (stripChars l) = stripChars l := by
  have hBfront : ∀ a,
      ((l.dropWhile isPySpace).reverse.dropWhile isPySpace).head? = some a →
        isPySpace a = false :=
    head?_dropWhile_false isPySpace (l.dropWhile isPySpace).reverse
  have h1 : ((l.dropWhile isPySpace).reverse.dropWhile
        isPySpace).reverse.dropWhile isPySpace =
      ((l.dropWhile isPySpace).reverse.dropWhile isPySpace).reverse := by
    apply dropWhile_of_clean
    intro a ha
    rw [List.head?_reverse] at ha
    by_cases hnil :
        (l.dropWhile isPySpace).reverse.dropWhile isPySpace = []
    · rw [hnil] at ha
      simp at ha
    · rw [getLast?_dropWhile isPySpace _ hnil, List.getLast?_reverse] at ha
      exact head?_dropWhile_false isPySpace l a ha
  unfold stripChars
  rw [h1, List.reverse_reverse,
    dropWhile_of_clean isPySpace _ hBfront]

theorem strip_idem (s : String) : strip (strip s) = strip s :=
  congrArg String.mk (stripChars_idem s.data)

theorem strip_whitespace (s : String) (h : s.data.all isPySpace = true) :
    strip s = "" := by
  have h1 : s.data.dropWhile isPySpace = [] :=
    List.dropWhile_eq_nil_iff.mpr (List.all_eq_true.mp h)
  simp [strip, stripChars, h1]

theorem contribPatho_texts (provider : Nat → String) (chosen : List Int)
    (k : Nat) (item : Item) :
    ∀ e ∈ contribPatho provider chosen k item,
      strip e.text = e.text ∧ e.text ≠ "" := by
  intro e he
  simp only [contribPatho] at he
  by_cases hm : item.nummer ∈ chosen
  · rw [if_pos hm] at he
    by_cases hb : item.bilateral
    · rw [if_pos hb] at he
      rcases List.mem_append.mp he with h | h
      · by_cases hl : strip (provider k) = ""
        · rw [if_pos hl] at h
          simp at h
        · rw [if_neg hl, List.mem_singleton] at h
          subst h
          exact ⟨strip_idem _, hl⟩
      · by_cases hr : strip (provider (k + 1)) = ""
        · rw [if_pos hr] at h
          simp at h
        · rw [if_neg hr, List.mem_singleton] at h
          subst h
          exact ⟨strip_idem _, hr⟩
    · rw [if_neg hb] at he
      by_cases hl : strip (provider k) = ""
      · rw [if_pos hl] at he
        simp at he
      · rw [if_neg hl, List.mem_singleton] at he
        subst he
        exact ⟨strip_idem _, hl⟩
  · rw [if_neg hm] at he
    simp at he

/-- C10: every override answer is stripped before it is tested — every
Pathological entry's text is strip-fixed (no leading or trailing whitespace)
and non-empty, and an affected item whose answer (resp. both of whose
answers, bilateral case) consists only of whitespace is filed in Normal
with the item's default text. -/
theorem c10_strip_overrides (provider : Nat → String) (chosen : List Int)
    (items : List Item) (n p : List Entry) (k : Nat) (item : Item) :
    (∀ e ∈ (replace_pathological provider chosen items).2,
      strip e.text = e.text ∧ e.text ≠ "") ∧
    (item.nummer ∈ chosen → (provider k).data.all isPySpace = true →
      (item.bilateral = false →
        classifyStep provider chosen (n, p, k) item =
          (n ++ [⟨none, item.text⟩], p, k + 1)) ∧
      (item.bilateral = true → (provider (k + 1)).data.all isPySpace = true →
        classifyStep provider chosen (n, p, k) item =
          (n ++ [⟨some "LINKS", item.text⟩, ⟨some "RECHTS", item.text⟩], p,
            k + 2))) := by
  constructor
  · rw [replace_pathological_eq]
    intro e he
    obtain ⟨q, hq, he⟩ := List.mem_flatMap.mp he
    exact contribPatho_texts provider chosen q.1 q.2 e he
  · intro hm hw
    have hk : strip (provider k) = "" := strip_whitespace _ hw
    constructor
    · intro hb
      rw [classifyStep_eq]
      simp [contribNormal, contribPatho, questionCount, hm, hb, hk]
    · intro hb hw2
      have hk2 : strip (provider (k + 1)) = "" := strip_whitespace _ hw2
      rw [classifyStep_eq]
      simp [contribNormal, contribPatho, questionCount, hm, hb, hk, hk2]

theorem c10_witness :
    classifyStep (fun _ => " \t ") [4] ([], [], 0)
        ⟨"n", 4, "Nieren unauffällig", false, true⟩ =
      ([⟨none, "Nieren unauffällig"⟩], [], 1) :=
  ((c10_strip_overrides (fun _ => " \t ") [4] [] [] [] 0
    ⟨"n", 4, "Nieren unauffällig", false, true⟩).2
      (by decide) (by decide)).1 rfl

-- ------------------ CSV PATH CLAIM ------------------

/-- C4: contrary to the claim, the catalog loaders ignore the path argument
supplied through `--csv` and always read the fixed default file: item
iteration, menu building and item selection return the same result for any
two supplied paths, and on a filesystem where `organe.csv` and `andere.csv`
hold different rows, loading with path `andere.csv` yields the items of
`organe.csv` (`organe.py` lines 96 and 118 open `DEFAULT_CSV`, not
`csv_path`). -/
theorem c4_csv_flag_ignored (fs : String → List Row) (fp fq : String)
    (b : Bool) (sel : List String) (ua : Bool) :
    iter_items_from_csv fs fp b = iter_items_from_csv fs fq b ∧
    load_organs_menu fs fp = load_organs_menu fs fq ∧
    select_items_for_kuerzel fs sel fp ua =
      select_items_for_kuerzel fs sel fq ua ∧
    iter_items_from_csv
        (fun path =>
          if path = "organe.csv" then
            [⟨"h", "1", "Herz regelrecht", none, none, some "Herz"⟩]
          else [⟨"l", "2", "Lunge frei", none, some "ja", some "Lunge"⟩])
        "andere.csv" false =
      some [⟨"h", 1, "Herz regelrecht", false, true⟩] :=
  ⟨rfl, rfl, rfl, by decide⟩
